import Mathlib

/-!
Shallow embedding of the OTP verification route handler
(POST /api/auth/verify-otp) of the repository, together with the store
operations it performs against the Prisma-backed database, and proofs of
the specified properties of that handler.

The handler source is the `POST` function of the verify-otp route. The
database is modelled as a pair of lists (OTP records and client users);
each Prisma call of the handler is mirrored by a pure list operation and
additionally recorded in an event trace, so that properties about the
number and order of store accesses can be stated directly.
-/

namespace VerifyOtp

/-- One row of the `emailOTP` table, with the fields the handler reads or
writes: id, email, otpHash, attempts, verified, createdAt, expiresAt.
Timestamps are modelled as natural numbers. -/
structure OtpRecord where
  id : Nat
  email : String
  otpHash : String
  attempts : Nat
  verified : Bool
  createdAt : Nat
  expiresAt : Nat
deriving DecidableEq

/-- One row of the `clientUser` table, restricted to the fields this
handler touches: id, unique email key, and the emailVerified flag. -/
structure ClientUser where
  id : Nat
  email : String
  emailVerified : Bool
deriving DecidableEq

/-- The persistent store: the `emailOTP` table and the `clientUser`
table, each as a list of rows. -/
structure Store where
  otps : List OtpRecord
  users : List ClientUser
deriving DecidableEq

/-- A field of the incoming JSON body. `str s` is a string value;
`missing` covers an absent field and the other falsy values that fail
the `!field` check in the handler; `nonString` is a present truthy value
of a non-string type, which fails the typeof check. -/
inductive ReqField where
  | missing
  | nonString
  | str (s : String)
deriving DecidableEq

/-- The regex test `^\d{6}$` of the handler: exactly six decimal
digits. -/
def isSixDigits (s : String) : Bool :=
  s.length == 6 && s.toList.all (fun c => c.isDigit)

/-- Whitespace trimming at both ends of a character list, the
character-level content of `String.trim`. -/
def trimChars (cs : List Char) : List Char :=
  ((cs.dropWhile Char.isWhitespace).reverse.dropWhile Char.isWhitespace).reverse

/-- The email normalisation of the handler:
`email.trim().toLowerCase()`, embedded over the character list of the
string (whitespace trim at both ends, then character-wise lower
casing). -/
def normalizeEmail (e : String) : String :=
  ⟨(trimChars e.data).map Char.toLower⟩

/-- Modelled from the spec: the hash function of `lib/otpUtils`, which is
not among the source files (only this handler, its caller, is). The spec
requires a deterministic one-way hash of the 6-digit code whose
verification compares digests; for the purposes of this development it is
modelled as an injective tagging function. -/
def hashOTP (code : String) : String :=
  "otp-hash:" ++ code

/-- Modelled from the spec: the `verifyOTP` primitive of `lib/otpUtils`
(not among the source files) re-hashes the submitted candidate and
compares it with the stored digest. -/
def verifyOTP (candidate storedHash : String) : Bool :=
  hashOTP candidate == storedHash

/-- Modelled from the spec: the `isOTPExpired` primitive of
`lib/otpUtils` (not among the source files): a record is expired exactly
when the current time is strictly past its expiresAt timestamp. -/
def isOTPExpired (expiresAt now : Nat) : Bool :=
  decide (expiresAt < now)

/-- One Prisma call made by the handler, recorded in an event trace. -/
inductive StoreEvent where
  | findLatestOtp (email : String)
  | deleteOtp (id : Nat)
  | updateOtpAttempts (id : Nat) (newAttempts : Nat)
  | updateOtpVerified (id : Nat)
  | findUser (email : String)
  | updateUserVerified (id : Nat)
deriving DecidableEq

/-- The distinct responses of the handler. `validationError` covers the
three input-shape rejections; `invalidCode` carries the
remainingAttempts integer of the payload; `success` carries the body
fields of the 200 response: the success flag, the message, and the id,
email and emailVerified fields of the returned user object. -/
inductive VerifyResult where
  | validationError (msg : String)
  | notFound
  | expired
  | exhausted
  | invalidCode (remainingAttempts : Nat)
  | userNotFound
  | success (ok : Bool) (message : String) (id : Nat) (email : String)
      (emailVerified : Bool)
deriving DecidableEq

/-- The HTTP status code attached to each response by the handler. -/
def status : VerifyResult → Nat
  | .validationError _ => 400
  | .notFound => 404
  | .expired => 400
  | .exhausted => 400
  | .invalidCode _ => 400
  | .userNotFound => 404
  | .success _ _ _ _ _ => 200

/-- The accumulator step of the descending-createdAt selection: keep the
record created later, preferring the earlier list element on ties. -/
def laterOf (best : Option OtpRecord) (r : OtpRecord) : Option OtpRecord :=
  match best with
  | none => some r
  | some b => if b.createdAt < r.createdAt then some r else some b

/-- `prisma.emailOTP.findFirst` with `where email` and
`orderBy createdAt desc`: among the records whose email matches, the
first one of maximal createdAt. -/
def findLatestOtp (email : String) (otps : List OtpRecord) : Option OtpRecord :=
  (otps.filter (fun r => r.email == email)).foldl laterOf none

/-- `prisma.emailOTP.delete` with `where id`. -/
def deleteOtp (id : Nat) (otps : List OtpRecord) : List OtpRecord :=
  otps.filter (fun r => r.id != id)

/-- `prisma.emailOTP.update` with `where id` and `data attempts`. -/
def updateOtpAttempts (id newAttempts : Nat) (otps : List OtpRecord) :
    List OtpRecord :=
  otps.map (fun r => if r.id == id then { r with attempts := newAttempts } else r)

/-- `prisma.emailOTP.update` with `where id` and `data verified true`. -/
def updateOtpVerified (id : Nat) (otps : List OtpRecord) : List OtpRecord :=
  otps.map (fun r => if r.id == id then { r with verified := true } else r)

/-- `prisma.clientUser.findUnique` with `where email` (unique key). -/
def findUserByEmail (email : String) (users : List ClientUser) :
    Option ClientUser :=
  users.find? (fun u => u.email == email)

/-- `prisma.clientUser.update` with `where id` and
`data emailVerified true`. -/
def updateUserVerified (id : Nat) (users : List ClientUser) :
    List ClientUser :=
  users.map (fun u => if u.id == id then { u with emailVerified := true } else u)

/-- The result of one handler execution: the response, the final state of
the store, and the trace of store calls in the order they were made. -/
structure Outcome where
  res : VerifyResult
  store : Store
  events : List StoreEvent
deriving DecidableEq

/-- The verify-otp route handler `POST`, translated step by step from the
source. `now` is the clock the expiry helper reads. The two JSON fields
are `ReqField` values; a falsy field (absent, or the empty string) fails
the `!field` check, a non-string truthy field fails the typeof check,
and both produce the same required-field rejection as in the source. -/
def POST (now : Nat) (email otp : ReqField) (s : Store) : Outcome :=
  match email with
  | .str e =>
    if e == "" then
      ⟨.validationError "Email is required", s, []⟩
    else
      match otp with
      | .str code =>
        if code == "" then
          ⟨.validationError "OTP is required", s, []⟩
        else if !isSixDigits code then
          ⟨.validationError "Invalid OTP format. OTP must be a 6-digit number",
            s, []⟩
        else
          let normalizedEmail := normalizeEmail e
          match findLatestOtp normalizedEmail s.otps with
          | none =>
            ⟨.notFound, s, [.findLatestOtp normalizedEmail]⟩
          | some otpRecord =>
            if isOTPExpired otpRecord.expiresAt now then
              ⟨.expired,
                { s with otps := deleteOtp otpRecord.id s.otps },
                [.findLatestOtp normalizedEmail, .deleteOtp otpRecord.id]⟩
            else if 3 ≤ otpRecord.attempts then
              ⟨.exhausted,
                { s with otps := deleteOtp otpRecord.id s.otps },
                [.findLatestOtp normalizedEmail, .deleteOtp otpRecord.id]⟩
            else if !verifyOTP code otpRecord.otpHash then
              let newAttempts := otpRecord.attempts + 1
              let remaining : Int := 3 - (newAttempts : Int)
              ⟨.invalidCode (if 0 < remaining then remaining.toNat else 0),
                { s with otps := updateOtpAttempts otpRecord.id newAttempts s.otps },
                [.findLatestOtp normalizedEmail,
                  .updateOtpAttempts otpRecord.id newAttempts]⟩
            else
              let s1 := { s with otps := updateOtpVerified otpRecord.id s.otps }
              match findUserByEmail normalizedEmail s1.users with
              | none =>
                ⟨.userNotFound, s1,
                  [.findLatestOtp normalizedEmail,
                    .updateOtpVerified otpRecord.id,
                    .findUser normalizedEmail]⟩
              | some clientUser =>
                let updatedUser := { clientUser with emailVerified := true }
                let s2 := { s1 with users := updateUserVerified clientUser.id s1.users }
                let s3 := { s2 with otps := deleteOtp otpRecord.id s2.otps }
                ⟨.success true "Email verified successfully"
                    updatedUser.id updatedUser.email updatedUser.emailVerified,
                  s3,
                  [.findLatestOtp normalizedEmail,
                    .updateOtpVerified otpRecord.id,
                    .findUser normalizedEmail,
                    .updateUserVerified clientUser.id,
                    .deleteOtp otpRecord.id]⟩
      | _ => ⟨.validationError "OTP is required", s, []⟩
  | _ => ⟨.validationError "Email is required", s, []⟩

/-- Concrete record for the witness runs. -/
def wRec : OtpRecord := ⟨2, "a@b.c", hashOTP "123456", 0, false, 5, 100⟩

/-- Concrete user for the witness runs. -/
def wUser : ClientUser := ⟨7, "a@b.c", false⟩

/-- Concrete store for the witness runs. -/
def wStore : Store := ⟨[wRec], [wUser]⟩

/-- Concrete expired record for the C2 witness. -/
def wRecExp : OtpRecord := ⟨3, "a@b.c", hashOTP "123456", 0, false, 5, 40⟩

/-- The store after three wrong-code submissions against `wStore`: the
attempts counter of the single record has climbed 0, 1, 2, 3. -/
def wStore3 : Store :=
  (POST 50 (.str "a@b.c") (.str "000003")
    (POST 50 (.str "a@b.c") (.str "000002")
      (POST 50 (.str "a@b.c") (.str "000001") wStore).store).store).store

/-- The single record of `wStore3`: `wRec` with three recorded failed
attempts. -/
def wRec3 : OtpRecord := { wRec with attempts := 3 }

/-- The outcomes in which the handler never reached a successful code
comparison: validation failure, missing record, expiry, exhaustion, or
code mismatch. -/
def isPreMatchFailure : VerifyResult → Bool
  | .validationError _ => true
  | .notFound => true
  | .expired => true
  | .exhausted => true
  | .invalidCode _ => true
  | .userNotFound => false
  | .success _ _ _ _ _ => false

/-- Store events that read or write the user table. -/
def touchesUser : StoreEvent → Bool
  | .findUser _ => true
  | .updateUserVerified _ => true
  | _ => false

/-! ## Helper lemmas -/

/-- A six-digit code is in particular not the empty string, so it passes
the falsy check of the handler. -/
theorem isSixDigits_ne_empty {c : String} (h : isSixDigits c = true) :
    (c == "") = false := by
  unfold isSixDigits at h
  rw [Bool.and_eq_true, beq_iff_eq] at h
  rcases h with ⟨hlen, _⟩
  rw [beq_eq_false_iff_ne]
  intro he
  rw [he] at hlen
  simp at hlen

/-- The fold underlying `findLatestOtp` only ever returns the
accumulator or an element of the list. -/
theorem foldl_laterOf_mem (l : List OtpRecord) (acc : Option OtpRecord)
    (r : OtpRecord) (h : l.foldl laterOf acc = some r) :
    acc = some r ∨ r ∈ l := by
  induction l generalizing acc with
  | nil => exact Or.inl h
  | cons a l ih =>
    rcases ih (laterOf acc a) h with h1 | h1
    · cases acc with
      | none =>
        rw [show laterOf none a = some a from rfl, Option.some.injEq] at h1
        exact Or.inr (by simp [h1])
      | some b =>
        rw [show laterOf (some b) a =
            (if b.createdAt < a.createdAt then some a else some b) from rfl] at h1
        split at h1
        · rw [Option.some.injEq] at h1
          exact Or.inr (by simp [h1])
        · exact Or.inl h1
    · exact Or.inr (List.mem_cons_of_mem a h1)

/-- The record returned by `findLatestOtp` belongs to the table and has
the looked-up email. -/
theorem findLatestOtp_mem {em : String} {otps : List OtpRecord}
    {r : OtpRecord} (h : findLatestOtp em otps = some r) :
    r ∈ otps ∧ r.email = em := by
  unfold findLatestOtp at h
  rcases foldl_laterOf_mem _ none r h with h1 | h1
  · exact absurd h1 (by simp)
  · rw [List.mem_filter] at h1
    exact ⟨h1.1, by have := h1.2; rwa [beq_iff_eq] at this⟩

/-! ## The claims -/

/-- Claim C1: a request that passes validation, whose latest OTP record
is unexpired with attempts below the ceiling, whose code matches the
stored hash, and whose user record exists, marks the OTP record
verified, sets emailVerified true on the user, deletes the OTP record,
and returns HTTP 200 with the user id, email and emailVerified flag;
the trace shows the user update happens before the OTP deletion. -/
theorem C1_success_path
    (now : Nat) (e code : String) (s : Store)
    (rec : OtpRecord) (u : ClientUser)
    (he : e ≠ "")
    (hcode : isSixDigits code = true)
    (hfind : findLatestOtp (normalizeEmail e) s.otps = some rec)
    (hexp : now ≤ rec.expiresAt)
    (hatt : rec.attempts < 3)
    (hmatch : verifyOTP code rec.otpHash = true)
    (huser : findUserByEmail (normalizeEmail e) s.users = some u) :
    POST now (.str e) (.str code) s =
      ⟨.success true "Email verified successfully" u.id u.email true,
        ⟨deleteOtp rec.id (updateOtpVerified rec.id s.otps),
          updateUserVerified u.id s.users⟩,
        [.findLatestOtp (normalizeEmail e), .updateOtpVerified rec.id,
          .findUser (normalizeEmail e), .updateUserVerified u.id,
          .deleteOtp rec.id]⟩ ∧
    status (POST now (.str e) (.str code) s).res = 200 := by
  have hne : (e == "") = false := beq_eq_false_iff_ne.mpr he
  have hcne : (code == "") = false := isSixDigits_ne_empty hcode
  have hexp2 : isOTPExpired rec.expiresAt now = false := by
    simp [isOTPExpired]; omega
  have hatt2 : ¬ 3 ≤ rec.attempts := by omega
  have hmain : POST now (.str e) (.str code) s =
      ⟨.success true "Email verified successfully" u.id u.email true,
        ⟨deleteOtp rec.id (updateOtpVerified rec.id s.otps),
          updateUserVerified u.id s.users⟩,
        [.findLatestOtp (normalizeEmail e), .updateOtpVerified rec.id,
          .findUser (normalizeEmail e), .updateUserVerified u.id,
          .deleteOtp rec.id]⟩ := by
    simp [POST, hne, hcne, hcode, hfind, hexp2, hatt2, hmatch, huser]
  refine ⟨hmain, ?_⟩
  rw [hmain]
  rfl

/-- Witness for C1 on a concrete store, exercising the trim and
lower-case normalisation as well. -/
theorem C1_success_path_witness :
    POST 50 (.str " A@B.c ") (.str "123456") wStore =
      ⟨.success true "Email verified successfully" 7 "a@b.c" true,
        ⟨deleteOtp 2 (updateOtpVerified 2 wStore.otps),
          updateUserVerified 7 wStore.users⟩,
        [.findLatestOtp (normalizeEmail " A@B.c "), .updateOtpVerified 2,
          .findUser (normalizeEmail " A@B.c "), .updateUserVerified 7,
          .deleteOtp 2]⟩ ∧
    status (POST 50 (.str " A@B.c ") (.str "123456") wStore).res = 200 :=
  C1_success_path 50 " A@B.c " "123456" wStore wRec wUser
    (by decide) (by decide) (by decide) (by decide) (by decide)
    (by decide) (by decide)

/-- Claim C2 counterexample: with two OTP records stored for the same
email and the most recent one expired, the handler returns the expired
error (even though the submitted code matches the stored hash of the
latest record), yet an OTP record for that email is still in the store
afterwards — only the latest record is deleted, by id. -/
theorem C2_counterexample :
    (POST 100 (.str "a@b.c") (.str "123456")
        ⟨[⟨1, "a@b.c", hashOTP "111111", 0, false, 1, 10⟩,
          ⟨2, "a@b.c", hashOTP "123456", 0, false, 5, 6⟩], []⟩).res =
      .expired ∧
    verifyOTP "123456" (hashOTP "123456") = true ∧
    ((POST 100 (.str "a@b.c") (.str "123456")
        ⟨[⟨1, "a@b.c", hashOTP "111111", 0, false, 1, 10⟩,
          ⟨2, "a@b.c", hashOTP "123456", 0, false, 5, 6⟩], []⟩).store.otps.any
      (fun r => r.email == "a@b.c")) = true := by decide

/-- Claim C2 (amended): on an expired latest record the handler deletes
that record by id and returns the expired error with status 400,
independently of the submitted code; when the expired record was the
only record stored for that email, no record for that email remains. -/
theorem C2_expired_path
    (now : Nat) (e code : String) (s : Store) (rec : OtpRecord)
    (he : e ≠ "") (hcode : isSixDigits code = true)
    (hfind : findLatestOtp (normalizeEmail e) s.otps = some rec)
    (hexp : rec.expiresAt < now) :
    POST now (.str e) (.str code) s =
      ⟨.expired, ⟨deleteOtp rec.id s.otps, s.users⟩,
        [.findLatestOtp (normalizeEmail e), .deleteOtp rec.id]⟩ ∧
    status (POST now (.str e) (.str code) s).res = 400 ∧
    (∀ code2, isSixDigits code2 = true →
      POST now (.str e) (.str code2) s = POST now (.str e) (.str code) s) ∧
    ((∀ r ∈ s.otps, r.email = normalizeEmail e → r.id = rec.id) →
      ∀ r ∈ (POST now (.str e) (.str code) s).store.otps,
        r.email ≠ normalizeEmail e) := by
  have hexp2 : isOTPExpired rec.expiresAt now = true := by
    simp [isOTPExpired]; omega
  have hgen : ∀ c2, isSixDigits c2 = true →
      POST now (.str e) (.str c2) s =
        ⟨.expired, ⟨deleteOtp rec.id s.otps, s.users⟩,
          [.findLatestOtp (normalizeEmail e), .deleteOtp rec.id]⟩ := by
    intro c2 hc2
    have hne : (e == "") = false := beq_eq_false_iff_ne.mpr he
    have hcne : (c2 == "") = false := isSixDigits_ne_empty hc2
    simp [POST, hne, hcne, hc2, hfind, hexp2]
  refine ⟨hgen code hcode, ?_, ?_, ?_⟩
  · rw [hgen code hcode]
    rfl
  · intro c2 hc2
    rw [hgen c2 hc2, hgen code hcode]
  · intro honly r hr
    rw [hgen code hcode] at hr
    unfold deleteOtp at hr
    rw [List.mem_filter] at hr
    intro hem
    have hne2 : r.id ≠ rec.id := by
      have := hr.2
      rwa [bne_iff_ne] at this
    exact hne2 (honly r hr.1 hem)

/-- Witness for the amended C2 on a concrete store whose only record is
expired. -/
theorem C2_expired_path_witness :
    POST 50 (.str "a@b.c") (.str "123456") ⟨[wRecExp], [wUser]⟩ =
      ⟨.expired, ⟨deleteOtp 3 [wRecExp], [wUser]⟩,
        [.findLatestOtp (normalizeEmail "a@b.c"), .deleteOtp 3]⟩ ∧
    status (POST 50 (.str "a@b.c") (.str "123456") ⟨[wRecExp], [wUser]⟩).res =
      400 :=
  ⟨(C2_expired_path 50 "a@b.c" "123456" ⟨[wRecExp], [wUser]⟩ wRecExp
      (by decide) (by decide) (by decide) (by decide)).1,
    (C2_expired_path 50 "a@b.c" "123456" ⟨[wRecExp], [wUser]⟩ wRecExp
      (by decide) (by decide) (by decide) (by decide)).2.1⟩

/-- Claim C3: on an unexpired latest record whose attempts counter has
reached 3, the handler deletes the record and returns the exhausted
error with status 400, independently of the submitted code — the code is
never compared, so a correct 4th-attempt code is still rejected and the
record purged. -/
theorem C3_exhausted_path
    (now : Nat) (e code : String) (s : Store) (rec : OtpRecord)
    (he : e ≠ "") (hcode : isSixDigits code = true)
    (hfind : findLatestOtp (normalizeEmail e) s.otps = some rec)
    (hexp : now ≤ rec.expiresAt)
    (hatt : 3 ≤ rec.attempts) :
    POST now (.str e) (.str code) s =
      ⟨.exhausted, ⟨deleteOtp rec.id s.otps, s.users⟩,
        [.findLatestOtp (normalizeEmail e), .deleteOtp rec.id]⟩ ∧
    status (POST now (.str e) (.str code) s).res = 400 ∧
    (∀ code2, isSixDigits code2 = true →
      POST now (.str e) (.str code2) s = POST now (.str e) (.str code) s) := by
  have hexp2 : isOTPExpired rec.expiresAt now = false := by
    simp [isOTPExpired]; omega
  have hgen : ∀ c2, isSixDigits c2 = true →
      POST now (.str e) (.str c2) s =
        ⟨.exhausted, ⟨deleteOtp rec.id s.otps, s.users⟩,
          [.findLatestOtp (normalizeEmail e), .deleteOtp rec.id]⟩ := by
    intro c2 hc2
    have hne : (e == "") = false := beq_eq_false_iff_ne.mpr he
    have hcne : (c2 == "") = false := isSixDigits_ne_empty hc2
    simp [POST, hne, hcne, hc2, hfind, hexp2, hatt]
  refine ⟨hgen code hcode, ?_, ?_⟩
  · rw [hgen code hcode]
    rfl
  · intro c2 hc2
    rw [hgen c2 hc2, hgen code hcode]

/-- Witness for C3: the 4th call with the correct code, after three
wrong submissions, is rejected as exhausted and the record deleted. -/
theorem C3_exhausted_path_witness :
    POST 50 (.str "a@b.c") (.str "123456") wStore3 =
      ⟨.exhausted, ⟨deleteOtp 2 wStore3.otps, wStore3.users⟩,
        [.findLatestOtp (normalizeEmail "a@b.c"), .deleteOtp 2]⟩ ∧
    status (POST 50 (.str "a@b.c") (.str "123456") wStore3).res = 400 :=
  ⟨(C3_exhausted_path 50 "a@b.c" "123456" wStore3 wRec3
      (by decide) (by decide) (by decide) (by decide) (by decide)).1,
    (C3_exhausted_path 50 "a@b.c" "123456" wStore3 wRec3
      (by decide) (by decide) (by decide) (by decide) (by decide)).2.1⟩

/-- Claim C4: on a code mismatch against a live record the handler
persists attempts incremented by exactly one, keeps the record, and
returns the invalid-code error with status 400 carrying
remainingAttempts equal to 3 minus the new counter, floored at zero. -/
theorem C4_invalid_code_path
    (now : Nat) (e code : String) (s : Store) (rec : OtpRecord)
    (he : e ≠ "") (hcode : isSixDigits code = true)
    (hfind : findLatestOtp (normalizeEmail e) s.otps = some rec)
    (hexp : now ≤ rec.expiresAt)
    (hatt : rec.attempts < 3)
    (hbad : verifyOTP code rec.otpHash = false) :
    POST now (.str e) (.str code) s =
      ⟨.invalidCode (3 - (rec.attempts + 1)),
        ⟨updateOtpAttempts rec.id (rec.attempts + 1) s.otps, s.users⟩,
        [.findLatestOtp (normalizeEmail e),
          .updateOtpAttempts rec.id (rec.attempts + 1)]⟩ ∧
    status (POST now (.str e) (.str code) s).res = 400 ∧
    (POST now (.str e) (.str code) s).store.otps.length = s.otps.length ∧
    { rec with attempts := rec.attempts + 1 } ∈
      (POST now (.str e) (.str code) s).store.otps := by
  have hne : (e == "") = false := beq_eq_false_iff_ne.mpr he
  have hcne : (code == "") = false := isSixDigits_ne_empty hcode
  have hexp2 : isOTPExpired rec.expiresAt now = false := by
    simp [isOTPExpired]; omega
  have hatt2 : ¬ 3 ≤ rec.attempts := by omega
  have hmain : POST now (.str e) (.str code) s =
      ⟨.invalidCode (3 - (rec.attempts + 1)),
        ⟨updateOtpAttempts rec.id (rec.attempts + 1) s.otps, s.users⟩,
        [.findLatestOtp (normalizeEmail e),
          .updateOtpAttempts rec.id (rec.attempts + 1)]⟩ := by
    simp [POST, hne, hcne, hcode, hfind, hexp2, hatt2, hbad]
    split <;> omega
  refine ⟨hmain, ?_, ?_, ?_⟩
  · rw [hmain]
    rfl
  · rw [hmain]
    simp [updateOtpAttempts]
  · rw [hmain]
    have hmem := (findLatestOtp_mem hfind).1
    have hmap := List.mem_map_of_mem
      (f := fun r => if r.id == rec.id then
        { r with attempts := rec.attempts + 1 } else r) hmem
    unfold updateOtpAttempts
    simpa using hmap

/-- Witness for C4: a wrong code against the concrete store increments
the counter and reports two remaining attempts. -/
theorem C4_invalid_code_path_witness :
    POST 50 (.str "a@b.c") (.str "000000") wStore =
      ⟨.invalidCode 2, ⟨updateOtpAttempts 2 1 wStore.otps, wStore.users⟩,
        [.findLatestOtp (normalizeEmail "a@b.c"),
          .updateOtpAttempts 2 1]⟩ ∧
    { wRec with attempts := 1 } ∈
      (POST 50 (.str "a@b.c") (.str "000000") wStore).store.otps :=
  ⟨(C4_invalid_code_path 50 "a@b.c" "000000" wStore wRec
      (by decide) (by decide) (by decide) (by decide) (by decide)
      (by decide)).1,
    (C4_invalid_code_path 50 "a@b.c" "000000" wStore wRec
      (by decide) (by decide) (by decide) (by decide) (by decide)
      (by decide)).2.2.2⟩

/-- Claim C5: a request whose email field is missing or not a string, or
whose otp field is missing, not a string, or not exactly six decimal
digits, is rejected with a validation error of status 400; the store is
untouched and the trace of store calls is empty. -/
theorem C5_validation_no_store
    (now : Nat) (email otp : ReqField) (s : Store)
    (h : (∀ e, email ≠ .str e) ∨ (∀ c, otp ≠ .str c) ∨
      (∃ c, otp = .str c ∧ isSixDigits c = false)) :
    (∃ msg, (POST now email otp s).res = .validationError msg) ∧
    status (POST now email otp s).res = 400 ∧
    (POST now email otp s).store = s ∧
    (POST now email otp s).events = [] := by
  have key : ∃ msg, POST now email otp s = ⟨.validationError msg, s, []⟩ := by
    cases email with
    | missing => exact ⟨"Email is required", rfl⟩
    | nonString => exact ⟨"Email is required", rfl⟩
    | str e =>
      by_cases h0 : e = ""
      · subst h0
        exact ⟨"Email is required", by simp [POST]⟩
      · have hne : (e == "") = false := beq_eq_false_iff_ne.mpr h0
        rcases h with h1 | h2 | ⟨c, hc, hbad⟩
        · exact absurd rfl (h1 e)
        · cases otp with
          | missing => exact ⟨"OTP is required", by simp [POST, hne]⟩
          | nonString => exact ⟨"OTP is required", by simp [POST, hne]⟩
          | str c => exact absurd rfl (h2 c)
        · subst hc
          by_cases hc0 : c = ""
          · subst hc0
            exact ⟨"OTP is required", by simp [POST, hne]⟩
          · have hcne : (c == "") = false := beq_eq_false_iff_ne.mpr hc0
            exact ⟨"Invalid OTP format. OTP must be a 6-digit number",
              by simp [POST, hne, hcne, hbad]⟩
  rcases key with ⟨msg, hmsg⟩
  rw [hmsg]
  exact ⟨⟨msg, rfl⟩, rfl, rfl, rfl⟩

/-- Witness for C5: a malformed otp value is rejected with no store
access. -/
theorem C5_validation_no_store_witness :
    (∃ msg, (POST 50 (.str "a@b.c") (.str "12a456") wStore).res =
      .validationError msg) ∧
    status (POST 50 (.str "a@b.c") (.str "12a456") wStore).res = 400 ∧
    (POST 50 (.str "a@b.c") (.str "12a456") wStore).store = wStore ∧
    (POST 50 (.str "a@b.c") (.str "12a456") wStore).events = [] :=
  C5_validation_no_store 50 (.str "a@b.c") (.str "12a456") wStore
    (Or.inr (Or.inr ⟨"12a456", rfl, by decide⟩))

/-- Claim C6: when the code matches a live record but no user record
exists under the normalized email, the handler answers with the
user-not-found error and status 404, and the OTP record stays in the
store marked verified, not deleted. -/
theorem C6_user_missing_path
    (now : Nat) (e code : String) (s : Store) (rec : OtpRecord)
    (he : e ≠ "") (hcode : isSixDigits code = true)
    (hfind : findLatestOtp (normalizeEmail e) s.otps = some rec)
    (hexp : now ≤ rec.expiresAt)
    (hatt : rec.attempts < 3)
    (hmatch : verifyOTP code rec.otpHash = true)
    (huser : findUserByEmail (normalizeEmail e) s.users = none) :
    POST now (.str e) (.str code) s =
      ⟨.userNotFound, ⟨updateOtpVerified rec.id s.otps, s.users⟩,
        [.findLatestOtp (normalizeEmail e), .updateOtpVerified rec.id,
          .findUser (normalizeEmail e)]⟩ ∧
    status (POST now (.str e) (.str code) s).res = 404 ∧
    { rec with verified := true } ∈
      (POST now (.str e) (.str code) s).store.otps ∧
    (POST now (.str e) (.str code) s).store.otps.length = s.otps.length := by
  have hne : (e == "") = false := beq_eq_false_iff_ne.mpr he
  have hcne : (code == "") = false := isSixDigits_ne_empty hcode
  have hexp2 : isOTPExpired rec.expiresAt now = false := by
    simp [isOTPExpired]; omega
  have hatt2 : ¬ 3 ≤ rec.attempts := by omega
  have hmain : POST now (.str e) (.str code) s =
      ⟨.userNotFound, ⟨updateOtpVerified rec.id s.otps, s.users⟩,
        [.findLatestOtp (normalizeEmail e), .updateOtpVerified rec.id,
          .findUser (normalizeEmail e)]⟩ := by
    simp [POST, hne, hcne, hcode, hfind, hexp2, hatt2, hmatch, huser]
  refine ⟨hmain, ?_, ?_, ?_⟩
  · rw [hmain]
    rfl
  · rw [hmain]
    have hmem := (findLatestOtp_mem hfind).1
    have hmap := List.mem_map_of_mem
      (f := fun r => if r.id == rec.id then { r with verified := true } else r)
      hmem
    unfold updateOtpVerified
    simpa using hmap
  · rw [hmain]
    simp [updateOtpVerified]

/-- Witness for C6 on a store holding the OTP record but no user. -/
theorem C6_user_missing_path_witness :
    POST 50 (.str "a@b.c") (.str "123456") ⟨[wRec], []⟩ =
      ⟨.userNotFound, ⟨updateOtpVerified 2 [wRec], []⟩,
        [.findLatestOtp (normalizeEmail "a@b.c"), .updateOtpVerified 2,
          .findUser (normalizeEmail "a@b.c")]⟩ ∧
    { wRec with verified := true } ∈
      (POST 50 (.str "a@b.c") (.str "123456") ⟨[wRec], []⟩).store.otps :=
  ⟨(C6_user_missing_path 50 "a@b.c" "123456" ⟨[wRec], []⟩ wRec
      (by decide) (by decide) (by decide) (by decide) (by decide)
      (by decide) (by decide)).1,
    (C6_user_missing_path 50 "a@b.c" "123456" ⟨[wRec], []⟩ wRec
      (by decide) (by decide) (by decide) (by decide) (by decide)
      (by decide) (by decide)).2.2.1⟩

/-- Exhaustive shape lemma: every execution of the handler lands in one
of the seven response shapes, with the store and trace it produces. -/
theorem POST_shape (now : Nat) (email otp : ReqField) (s : Store) :
    (∃ m, POST now email otp s = ⟨.validationError m, s, []⟩) ∨
    (∃ k, POST now email otp s = ⟨.notFound, s, [.findLatestOtp k]⟩) ∨
    (∃ k rid, POST now email otp s =
      ⟨.expired, ⟨deleteOtp rid s.otps, s.users⟩,
        [.findLatestOtp k, .deleteOtp rid]⟩) ∨
    (∃ k rid, POST now email otp s =
      ⟨.exhausted, ⟨deleteOtp rid s.otps, s.users⟩,
        [.findLatestOtp k, .deleteOtp rid]⟩) ∨
    (∃ k rid n r, POST now email otp s =
      ⟨.invalidCode r, ⟨updateOtpAttempts rid n s.otps, s.users⟩,
        [.findLatestOtp k, .updateOtpAttempts rid n]⟩) ∨
    (∃ k rid, POST now email otp s =
      ⟨.userNotFound, ⟨updateOtpVerified rid s.otps, s.users⟩,
        [.findLatestOtp k, .updateOtpVerified rid, .findUser k]⟩) ∨
    (∃ k rid uid uem, POST now email otp s =
      ⟨.success true "Email verified successfully" uid uem true,
        ⟨deleteOtp rid (updateOtpVerified rid s.otps),
          updateUserVerified uid s.users⟩,
        [.findLatestOtp k, .updateOtpVerified rid, .findUser k,
          .updateUserVerified uid, .deleteOtp rid]⟩) := by
  generalize hP : POST now email otp s = o
  simp only [POST] at hP
  repeat' split at hP
  all_goals subst hP
  all_goals first
    | exact Or.inl ⟨_, rfl⟩
    | exact Or.inr (Or.inl ⟨_, rfl⟩)
    | exact Or.inr (Or.inr (Or.inl ⟨_, _, rfl⟩))
    | exact Or.inr (Or.inr (Or.inr (Or.inl ⟨_, _, rfl⟩)))
    | exact Or.inr (Or.inr (Or.inr (Or.inr (Or.inl ⟨_, _, _, _, rfl⟩))))
    | exact Or.inr (Or.inr (Or.inr (Or.inr (Or.inr (Or.inl ⟨_, _, rfl⟩)))))
    | exact Or.inr (Or.inr (Or.inr (Or.inr (Or.inr (Or.inr
        ⟨_, _, _, _, rfl⟩)))))

/-- Claim C7: in every execution each user keeps its id and email and
its emailVerified flag only ever goes from false to true, never back;
moreover, any change at all to the user table implies the run answered
with the success response of a matched code. -/
theorem C7_email_verified_monotone
    (now : Nat) (email otp : ReqField) (s : Store) :
    List.Forall₂ (fun u v : ClientUser =>
      u.id = v.id ∧ u.email = v.email ∧
      (u.emailVerified = true → v.emailVerified = true))
      s.users (POST now email otp s).store.users ∧
    ((POST now email otp s).store.users ≠ s.users →
      ∃ uid uem, (POST now email otp s).res =
        .success true "Email verified successfully" uid uem true) := by
  have hsame : List.Forall₂ (fun u v : ClientUser =>
      u.id = v.id ∧ u.email = v.email ∧
      (u.emailVerified = true → v.emailVerified = true)) s.users s.users :=
    List.forall₂_same.2 (fun u _ => ⟨rfl, rfl, id⟩)
  have hupd : ∀ uid, List.Forall₂ (fun u v : ClientUser =>
      u.id = v.id ∧ u.email = v.email ∧
      (u.emailVerified = true → v.emailVerified = true))
      s.users (updateUserVerified uid s.users) := by
    intro uid
    unfold updateUserVerified
    rw [List.forall₂_map_right_iff]
    refine List.forall₂_same.2 (fun u _ => ?_)
    by_cases hid : (u.id == uid) = true
    · rw [if_pos hid]
      exact ⟨rfl, rfl, fun _ => rfl⟩
    · rw [if_neg hid]
      exact ⟨rfl, rfl, id⟩
  rcases POST_shape now email otp s with ⟨m, hq⟩ | ⟨k, hq⟩ | ⟨k, rid, hq⟩ |
    ⟨k, rid, hq⟩ | ⟨k, rid, n, r, hq⟩ | ⟨k, rid, hq⟩ |
    ⟨k, rid, uid, uem, hq⟩ <;> rw [hq]
  case _ => exact ⟨hsame, fun hcon => absurd rfl hcon⟩
  case _ => exact ⟨hsame, fun hcon => absurd rfl hcon⟩
  case _ => exact ⟨hsame, fun hcon => absurd rfl hcon⟩
  case _ => exact ⟨hsame, fun hcon => absurd rfl hcon⟩
  case _ => exact ⟨hsame, fun hcon => absurd rfl hcon⟩
  case _ => exact ⟨hsame, fun hcon => absurd rfl hcon⟩
  case _ => exact ⟨hupd uid, fun _ => ⟨uid, uem, rfl⟩⟩

/-- Witness for C7: on the concrete store the user table does change,
and the implication of the theorem yields the success response. -/
theorem C7_email_verified_monotone_witness :
    ∃ uid uem, (POST 50 (.str " A@B.c ") (.str "123456") wStore).res =
      .success true "Email verified successfully" uid uem true :=
  (C7_email_verified_monotone 50 (.str " A@B.c ") (.str "123456") wStore).2
    (by decide)

/-- Claim C8: whenever the handler returns the success response, its
status is 200 and the body carries the success flag set to true, the
fixed message, and a user object whose emailVerified field is true. -/
theorem C8_success_status_and_shape
    (now : Nat) (email otp : ReqField) (s : Store)
    (ok : Bool) (msg : String) (uid : Nat) (uem : String) (uver : Bool)
    (h : (POST now email otp s).res = .success ok msg uid uem uver) :
    status (POST now email otp s).res = 200 ∧ ok = true ∧
    msg = "Email verified successfully" ∧ uver = true := by
  refine ⟨by rw [h]; rfl, ?_⟩
  rcases POST_shape now email otp s with ⟨m, hq⟩ | ⟨k, hq⟩ | ⟨k, rid, hq⟩ |
    ⟨k, rid, hq⟩ | ⟨k, rid, n, r, hq⟩ | ⟨k, rid, hq⟩ |
    ⟨k, rid, uid2, uem2, hq⟩
  · rw [hq] at h; simp at h
  · rw [hq] at h; simp at h
  · rw [hq] at h; simp at h
  · rw [hq] at h; simp at h
  · rw [hq] at h; simp at h
  · rw [hq] at h; simp at h
  · rw [hq] at h
    injection h with h1 h2 h3 h4 h5
    exact ⟨h1.symm, h2.symm, h5.symm⟩

/-- Witness for C8 at the concrete successful run. -/
theorem C8_success_status_and_shape_witness :
    status (POST 50 (.str " A@B.c ") (.str "123456") wStore).res = 200 ∧
    (true : Bool) = true ∧
    ("Email verified successfully" : String) = "Email verified successfully" ∧
    (true : Bool) = true :=
  C8_success_status_and_shape 50 (.str " A@B.c ") (.str "123456") wStore
    true "Email verified successfully" 7 "a@b.c" true (by decide)

/-- Claim C9: on every run that ends before a successful code
comparison — validation failure, missing record, expiry, exhaustion, or
mismatch — the user table is unchanged and the trace contains no read
or write of any user record. -/
theorem C9_frame_on_failure
    (now : Nat) (email otp : ReqField) (s : Store)
    (h : isPreMatchFailure (POST now email otp s).res = true) :
    (POST now email otp s).store.users = s.users ∧
    (POST now email otp s).events.all (fun ev => !touchesUser ev) = true := by
  rcases POST_shape now email otp s with ⟨m, hq⟩ | ⟨k, hq⟩ | ⟨k, rid, hq⟩ |
    ⟨k, rid, hq⟩ | ⟨k, rid, n, r, hq⟩ | ⟨k, rid, hq⟩ |
    ⟨k, rid, uid, uem, hq⟩ <;> rw [hq]
  case _ => exact ⟨rfl, rfl⟩
  case _ => exact ⟨rfl, rfl⟩
  case _ => exact ⟨rfl, rfl⟩
  case _ => exact ⟨rfl, rfl⟩
  case _ => exact ⟨rfl, rfl⟩
  case _ =>
    rw [hq] at h
    simp [isPreMatchFailure] at h
  case _ =>
    rw [hq] at h
    simp [isPreMatchFailure] at h

/-- Witness for C9: a wrong-code run leaves the user table alone and
makes no user store call. -/
theorem C9_frame_on_failure_witness :
    (POST 50 (.str "a@b.c") (.str "000000") wStore).store.users =
      wStore.users ∧
    (POST 50 (.str "a@b.c") (.str "000000") wStore).events.all
      (fun ev => !touchesUser ev) = true :=
  C9_frame_on_failure 50 (.str "a@b.c") (.str "000000") wStore (by decide)

/-- Claim C10: any nonempty email string passes validation together with
a well-formed six-digit otp; the email is only trimmed and lower-cased
to a lookup key, and when no OTP record matches that key the handler
answers not-found with status 404, not a validation error. -/
theorem C10_lenient_email
    (now : Nat) (e code : String) (s : Store)
    (he : e ≠ "") (hcode : isSixDigits code = true)
    (hfind : findLatestOtp (normalizeEmail e) s.otps = none) :
    POST now (.str e) (.str code) s =
      ⟨.notFound, s, [.findLatestOtp (normalizeEmail e)]⟩ ∧
    status (POST now (.str e) (.str code) s).res = 404 := by
  have hne : (e == "") = false := beq_eq_false_iff_ne.mpr he
  have hcne : (code == "") = false := isSixDigits_ne_empty hcode
  have hmain : POST now (.str e) (.str code) s =
      ⟨.notFound, s, [.findLatestOtp (normalizeEmail e)]⟩ := by
    simp [POST, hne, hcne, hcode, hfind]
  refine ⟨hmain, ?_⟩
  rw [hmain]
  rfl

/-- Witness for C10 with a whitespace-only email, which is nonempty and
so passes validation, normalises to the empty key, and yields the
not-found response. -/
theorem C10_lenient_email_witness :
    POST 50 (.str "   ") (.str "123456") wStore =
      ⟨.notFound, wStore, [.findLatestOtp (normalizeEmail "   ")]⟩ ∧
    status (POST 50 (.str "   ") (.str "123456") wStore).res = 404 :=
  C10_lenient_email 50 "   " "123456" wStore
    (by decide) (by decide) (by decide)

end VerifyOtp
